import Mathlib

/-!
Verification of the image-dpi-calculator-enhancer core
(`src/components/ImageEnhancer.tsx`).

The component is a React single-page widget.  Its transformable core is:
  * `calculateDPI`   — heuristic DPI estimation from dimensions and byte size;
  * `getImageStats`  — stats record construction;
  * `processImage`   — the transform pipeline (DPI estimation, scale factor,
                       new dimensions, canvas draw, JPEG re-encode, derived
                       size estimation, stats update);
  * `handleFileSelect` — upload validation and pipeline triggering;
  * the slider handlers that re-run the pipeline on parameter change.

Modelling conventions:
  * JavaScript numbers on the reachable inputs are modelled by exact
    arithmetic: integers as `ℕ`/`ℤ`, fractional results of `/` and `*` as `ℚ`.
    The only place IEEE-754 semantics is observable is the division by a zero
    pixel count (`x / 0` is `Infinity` for `x > 0`, `NaN` otherwise), which is
    modelled explicitly by a case split in `calculateDPI`.
  * `Math.round x` is `⌊x + 1/2⌋` (JavaScript rounds half toward +∞).
  * The browser environment (image decoding, canvas availability, the length
    of the data URL produced by `canvas.toDataURL`) is a parameter
    (`BrowserEnv`); the component's React state is an explicit record
    (`AppState`) and every handler is a state-transition function.
  * React `setX` calls schedule a state update for the next render; closures
    run inside the current render keep reading the values captured at that
    render.  This is reflected by passing the captured values separately from
    the threaded state where the source exhibits it (`onBrightnessChange`).
-/

namespace ImageEnhancer

/-- `interface ImageStats` (source lines 8–14). `width`/`height`/`fileSize`
are `ℤ` because derived values are produced by `Math.round`. -/
structure ImageStats where
  width : ℤ
  height : ℤ
  dpi : ℕ
  fileSize : ℤ
  format : String
deriving Repr, DecidableEq

/-- JavaScript `Math.round`: round half toward positive infinity. -/
def jsRound (q : ℚ) : ℤ := ⌊q + 1/2⌋

/-- `calculateDPI` (source lines 32–42):

    const totalPixels = width * height;
    const bytesPerPixel = fileSizeBytes / totalPixels;
    if (bytesPerPixel > 3) return 300;
    if (bytesPerPixel > 1.5) return 150;
    return 72;

When `totalPixels = 0` the JavaScript division is unguarded: it evaluates to
`Infinity` when `fileSizeBytes > 0` (so `> 3` holds and 300 is returned) and
to `NaN` or `-Infinity` otherwise (both comparisons fail, 72 is returned).
That IEEE behaviour is modelled by the explicit case split below; on a
positive pixel count the division is exact rational arithmetic. -/
def calculateDPI (width height : ℕ) (fileSizeBytes : ℤ) : ℕ :=
  let totalPixels := width * height
  if totalPixels = 0 then
    if 0 < fileSizeBytes then 300 else 72
  else
    let bytesPerPixel : ℚ := (fileSizeBytes : ℚ) / (totalPixels : ℚ)
    if bytesPerPixel > 3 then 300
    else if bytesPerPixel > 3/2 then 150
    else 72

/-- `getImageStats` (source lines 44–52). -/
def getImageStats (naturalWidth naturalHeight : ℕ) (fileSize : ℤ) : ImageStats :=
  { width := naturalWidth, height := naturalHeight,
    dpi := calculateDPI naturalWidth naturalHeight fileSize,
    fileSize := fileSize, format := "JPEG" }

/-- `scaleFactor = targetDpi[0] / originalDpi` (source line 61). -/
def scaleFactorOf (w h : ℕ) (fileSize : ℤ) (targetDpi : ℕ) : ℚ :=
  (targetDpi : ℚ) / (calculateDPI w h fileSize : ℚ)

/-- `newWidth = Math.round(img.naturalWidth * scaleFactor)` (source line 62). -/
def newWidthOf (w h : ℕ) (fileSize : ℤ) (targetDpi : ℕ) : ℤ :=
  jsRound ((w : ℚ) * scaleFactorOf w h fileSize targetDpi)

/-- `newHeight = Math.round(img.naturalHeight * scaleFactor)` (source line 63). -/
def newHeightOf (w h : ℕ) (fileSize : ℤ) (targetDpi : ℕ) : ℤ :=
  jsRound ((h : ℚ) * scaleFactorOf w h fileSize targetDpi)

/-- `Math.round((enhancedDataUrl.length - 'data:image/jpeg;base64,'.length) * 0.75)`
(source line 86).  The stripped header has 23 characters and `0.75 = 3/4`. -/
def estimatedSize (dataUrlLength : ℕ) : ℤ :=
  jsRound (((dataUrlLength : ℚ) - 23) * (3/4))

/-- Ephemeral user notices produced through the `sonner` toast API. -/
inductive Toast where
  | success (msg : String)
  | error (msg : String)
deriving Repr, DecidableEq

/-- Symbolic model of the data URL the successful pipeline stores in
`enhancedImage` (source lines 76–83): the canvas held the source image drawn
at `newWidth × newHeight` under `filter = brightness(b%) contrast(c%)`,
encoded as JPEG at `quality/100`.  The encoded bytes themselves are produced
by the browser; the string is modelled by the parameters that determined
it. -/
structure EnhancedPayload where
  sourceUrl : String
  width : ℤ
  height : ℤ
  filterBrightness : ℕ
  filterContrast : ℕ
  quality : ℕ
deriving Repr, DecidableEq

/-- The component's React state (source lines 17–26), plus the list of
toasts emitted so far (the user-visible notices). -/
structure AppState where
  originalImage : Option String
  enhancedImage : Option EnhancedPayload
  originalStats : Option ImageStats
  enhancedStats : Option ImageStats
  brightness : ℕ
  contrast : ℕ
  quality : ℕ
  targetDpi : ℕ
  isDragging : Bool
  isProcessing : Bool
  toasts : List Toast
deriving Repr, DecidableEq

/-- The browser's response to this run: whether `new Image()` decodes the
source URL (firing `onload`), whether `canvasRef.current` and
`getContext('2d')` are available, the natural pixel dimensions of the decoded
image, and the length of the data URL returned by
`canvas.toDataURL('image/jpeg', quality/100)`. -/
structure BrowserEnv where
  decodeOk : Bool
  naturalWidth : ℕ
  naturalHeight : ℕ
  canvasAvailable : Bool
  ctxAvailable : Bool
  dataUrlLength : ℕ
deriving Repr, DecidableEq

/-- The `img.onload` body of `processImage` (source lines 56–97), run when the
image decoded successfully.  `brightness`, `contrast`, `quality` and
`targetDpi` are the values captured by the `useCallback` closure at the
render that created this `processImage` instance. -/
def processImageOnload (env : BrowserEnv) (imageUrl : String) (fileSize : ℤ)
    (brightness contrast quality targetDpi : ℕ) (s : AppState) : AppState :=
  -- setOriginalStats(getImageStats(img, fileSize))  (line 57)
  let origStats : Option ImageStats :=
    some (getImageStats env.naturalWidth env.naturalHeight fileSize)
  let s1 : AppState := { s with originalStats := origStats }
  -- lines 60–63
  let nW : ℤ := newWidthOf env.naturalWidth env.naturalHeight fileSize targetDpi
  let nH : ℤ := newHeightOf env.naturalWidth env.naturalHeight fileSize targetDpi
  -- `if (!canvas) return;` (line 67)
  if env.canvasAvailable = false then s1
  -- `if (!ctx) return;` (line 73)
  else if env.ctxAvailable = false then s1
  else
    -- lines 76–83: draw with filters, encode, setEnhancedImage
    let payload : EnhancedPayload :=
      { sourceUrl := imageUrl, width := nW, height := nH,
        filterBrightness := brightness, filterContrast := contrast,
        quality := quality }
    let s2 : AppState := { s1 with enhancedImage := some payload }
    -- lines 86–93: setEnhancedStats
    let stats : ImageStats :=
      { width := nW, height := nH, dpi := targetDpi,
        fileSize := estimatedSize env.dataUrlLength, format := "JPEG" }
    let s3 : AppState := { s2 with enhancedStats := some stats }
    -- lines 95–96
    { s3 with
        isProcessing := false,
        toasts := s3.toasts ++ [Toast.success "Image enhanced successfully!"] }

/-- `processImage` (source lines 54–99).  No `img.onerror` handler is
installed: when decoding fails, `onload` never fires and the state is left
exactly as it was. -/
def processImage (env : BrowserEnv) (imageUrl : String) (fileSize : ℤ)
    (brightness contrast quality targetDpi : ℕ) (s : AppState) : AppState :=
  if env.decodeOk then
    processImageOnload env imageUrl fileSize brightness contrast quality
      targetDpi s
  else s

/-- JavaScript `String.prototype.startsWith(p)`: the character sequence of
`p` is an initial segment of the character sequence of `s`.  (Lean's own
byte-indexed `String.startsWith` computes the same Bool but through a
substring loop that the kernel cannot evaluate, so the model tests the
character lists directly.) -/
def jsStartsWith (s p : String) : Bool :=
  p.data.isPrefixOf s.data

/-- A selected file as the handlers see it: its declared MIME `type`, its
`size`, and the data URL the `FileReader` produces from it. -/
structure JsFile where
  type : String
  size : ℕ
  dataUrl : String
deriving Repr, DecidableEq

/-- `handleFileSelect` (source lines 101–115):

    if (!file.type.startsWith('image/')) { toast.error(...); return; }
    setIsProcessing(true);
    reader.onload = (e) => { setOriginalImage(imageUrl); processImage(imageUrl, file.size); };
-/
def handleFileSelect (env : BrowserEnv) (file : JsFile) (s : AppState) : AppState :=
  if ¬ (jsStartsWith file.type "image/") then
    { s with toasts := s.toasts ++ [Toast.error "Please select an image file"] }
  else
    let s1 : AppState := { s with isProcessing := true }
    let s2 : AppState := { s1 with originalImage := some file.dataUrl }
    processImage env file.dataUrl (file.size : ℤ) s.brightness s.contrast
      s.quality s.targetDpi s2

/-- `originalStats?.fileSize || 0` (source line 153). -/
def fileSizeOrZero : Option ImageStats → ℤ
  | none => 0
  | some st => st.fileSize

/-- `handleEnhancementChange` (source lines 150–155).  `captured` is the
state of the render whose closures are executing: `originalImage`,
`originalStats` and the four parameters read by the memoised `processImage`
all come from it, while the transition itself acts on the threaded state
`s`. -/
def handleEnhancementChange (env : BrowserEnv) (captured s : AppState) : AppState :=
  match captured.originalImage with
  | none => s
  | some url =>
      let s1 : AppState := { s with isProcessing := true }
      processImage env url (fileSizeOrZero captured.originalStats)
        captured.brightness captured.contrast captured.quality
        captured.targetDpi s1

/-- The brightness slider's `onValueChange` (source lines 284–287):

    setBrightness(value);
    handleEnhancementChange();

`setBrightness` only schedules a state update; `handleEnhancementChange`
executes inside the current render, so every value it and the memoised
`processImage` read — including `brightness` — is the one captured before the
change. -/
def onBrightnessChange (env : BrowserEnv) (s : AppState) (value : ℕ) : AppState :=
  let sNext : AppState := { s with brightness := value }
  handleEnhancementChange env s sNext

/-! Concrete environments and states used to instantiate the theorems. -/

/-- A browser run in which everything succeeds: the image decodes to
10 × 10 pixels and the encoder returns a 1023-character data URL. -/
def envOk : BrowserEnv :=
  { decodeOk := true, naturalWidth := 10, naturalHeight := 10,
    canvasAvailable := true, ctxAvailable := true, dataUrlLength := 1023 }

/-- Like `envOk` but the encoder returns a shorter data URL (as a lower
quality setting would produce). -/
def envOkShort : BrowserEnv :=
  { decodeOk := true, naturalWidth := 10, naturalHeight := 10,
    canvasAvailable := true, ctxAvailable := true, dataUrlLength := 523 }

/-- A run in which `canvasRef.current` is `null`. -/
def envNoCanvas : BrowserEnv :=
  { decodeOk := true, naturalWidth := 10, naturalHeight := 10,
    canvasAvailable := false, ctxAvailable := true, dataUrlLength := 1023 }

/-- A run in which the source image fails to decode (`onload` never fires). -/
def envNoDecode : BrowserEnv :=
  { decodeOk := false, naturalWidth := 10, naturalHeight := 10,
    canvasAvailable := true, ctxAvailable := true, dataUrlLength := 1023 }

/-- A state holding the results of an earlier completed run: an original
image with its stats and default slider values. -/
def s0demo : AppState :=
  { originalImage := some "old-image-data-url",
    enhancedImage := none,
    originalStats := some { width := 5, height := 5, dpi := 72,
                            fileSize := 10, format := "JPEG" },
    enhancedStats := none,
    brightness := 100, contrast := 100, quality := 85, targetDpi := 300,
    isDragging := false, isProcessing := false, toasts := [] }

/-- A non-image file as rejected by `handleFileSelect`. -/
def fileTextDemo : JsFile :=
  { type := "text/plain", size := 5, dataUrl := "text-data-url" }

/-- An image file as accepted by `handleFileSelect`. -/
def fileImageDemo : JsFile :=
  { type := "image/png", size := 500, dataUrl := "img-data-url" }

/-! Helper lemmas shared across the claim theorems. -/

/-- On a positive pixel count, `calculateDPI` is the three-way classification
of the exact bytes-per-pixel ratio. -/
theorem calculateDPI_pos_pixels (w h : ℕ) (size : ℤ) (hne : w * h ≠ 0) :
    calculateDPI w h size =
      (if (size : ℚ) / ((w * h : ℕ) : ℚ) > 3 then 300
       else if (size : ℚ) / ((w * h : ℕ) : ℚ) > 3/2 then 150
       else 72) := by
  simp only [calculateDPI, hne, if_false, ite_false, if_neg hne]

/-- `processImage` never touches `originalImage`. -/
theorem processImage_originalImage (env : BrowserEnv) (url : String)
    (fileSize : ℤ) (b c q t : ℕ) (s : AppState) :
    (processImage env url fileSize b c q t s).originalImage = s.originalImage := by
  unfold processImage processImageOnload
  split <;> [skip; rfl]
  split <;> [rfl; skip]
  split <;> rfl

/-- Claim C1: for every width, height and byte size with `width × height > 0`,
`calculateDPI` classifies the exact bytes-per-pixel ratio
`r = byteSize / (width × height)` as: `r > 3` gives 300, `1.5 < r ≤ 3` gives
150, `r ≤ 1.5` gives 72, and the result is always one of exactly these three
values. -/
theorem C1_dpi_classification (w h size : ℕ) (hpos : 0 < w * h) :
    ((size : ℚ) / ((w * h : ℕ) : ℚ) > 3 → calculateDPI w h (size : ℤ) = 300) ∧
    ((3/2 : ℚ) < (size : ℚ) / ((w * h : ℕ) : ℚ) ∧
        (size : ℚ) / ((w * h : ℕ) : ℚ) ≤ 3 →
      calculateDPI w h (size : ℤ) = 150) ∧
    ((size : ℚ) / ((w * h : ℕ) : ℚ) ≤ 3/2 → calculateDPI w h (size : ℤ) = 72) ∧
    (calculateDPI w h (size : ℤ) = 300 ∨ calculateDPI w h (size : ℤ) = 150 ∨
      calculateDPI w h (size : ℤ) = 72) := by
  have hne : w * h ≠ 0 := Nat.pos_iff_ne_zero.mp hpos
  have hcast : (((size : ℤ) : ℚ)) = ((size : ℕ) : ℚ) := by push_cast; ring
  rw [calculateDPI_pos_pixels w h (size : ℤ) hne, hcast]
  refine ⟨fun h3 => if_pos h3, fun hmid => ?_, fun hlow => ?_, ?_⟩
  · rw [if_neg (by exact not_lt.mpr hmid.2), if_pos hmid.1]
  · rw [if_neg (by push_neg; linarith), if_neg (by exact not_lt.mpr hlow)]
  · split_ifs <;> simp

/-- Witness for C1 at width 10, height 10, byte size 400 (ratio 4 > 3). -/
theorem C1_dpi_classification_witness :
    0 < 10 * 10 ∧ calculateDPI 10 10 (400 : ℕ) = 300 :=
  ⟨by decide,
    (C1_dpi_classification 10 10 400 (by decide)).1 (by norm_num)⟩

/-- Claim C3 counterexample: at width 0, height 1 and byte size 1000 the
pixel count is zero, yet `calculateDPI` returns 300, not 72 — the JavaScript
division is unguarded and yields `Infinity`, which passes the `> 3` test. -/
theorem C3_counterexample :
    calculateDPI 0 1 1000 = 300 ∧ calculateDPI 0 1 1000 ≠ 72 := by
  norm_num [calculateDPI]

/-- Claim C3 as amended: when `widthPx × heightPx` is zero the division is
performed unguarded; by IEEE-754 semantics it yields `Infinity` for a
positive byte size (so the estimator returns 300) and `NaN` otherwise (so it
returns 72).  No exception is thrown, but the fallback to 72 only happens for
byte size ≤ 0. -/
theorem C3_amended (w h : ℕ) (size : ℤ) (hz : w * h = 0) :
    calculateDPI w h size = if 0 < size then 300 else 72 := by
  simp [calculateDPI, hz]

/-- Witness for the amended C3 at width 0, height 3, byte size 7. -/
theorem C3_amended_witness :
    0 * 3 = 0 ∧ calculateDPI 0 3 7 = if (0 : ℤ) < 7 then 300 else 72 :=
  ⟨rfl, C3_amended 0 3 7 rfl⟩

/-- Claim C6: on a 2000 × 1500 source of 900000 bytes with target DPI 300,
the bytes-per-pixel ratio is 0.3, the estimated DPI is 72, the scale factor
is 300/72 = 25/6 ≈ 4.1667, and the new dimensions are 8333 × 6250. -/
theorem C6_scenario :
    (900000 : ℚ) / ((2000 * 1500 : ℕ) : ℚ) = 3/10 ∧
    calculateDPI 2000 1500 900000 = 72 ∧
    scaleFactorOf 2000 1500 900000 300 = 25/6 ∧
    newWidthOf 2000 1500 900000 300 = 8333 ∧
    newHeightOf 2000 1500 900000 300 = 6250 := by
  norm_num [calculateDPI, scaleFactorOf, newWidthOf, newHeightOf, jsRound]

/-- Claim C2 counterexample: a 1 × 1 source of 100 bytes is classified at
300 DPI, and rescaling it to target DPI 72 yields
`Math.round(1 × 72/300) = Math.round(0.24) = 0` — the output dimensions are
0 × 0, not clamped to at least 1 pixel. -/
theorem C2_counterexample :
    newWidthOf 1 1 100 72 = 0 ∧ newHeightOf 1 1 100 72 = 0 ∧
    ¬ (1 ≤ newWidthOf 1 1 100 72) := by
  norm_num [newWidthOf, newHeightOf, scaleFactorOf, calculateDPI, jsRound]

/-- Claim C2 as amended: every successful run stores enhanced dimensions
`newWidth = round(sourceWidth × targetDpi/originalDpi)` and
`newHeight = round(sourceHeight × targetDpi/originalDpi)`; no clamping is
applied, so the output of a 1 × 1 source can be 0 × 0. -/
theorem C2_amended (env : BrowserEnv) (url : String) (fileSize : ℤ)
    (b c q t : ℕ) (s : AppState)
    (hc : env.canvasAvailable = true) (hx : env.ctxAvailable = true) :
    Option.map (fun st : ImageStats => (st.width, st.height))
        (processImageOnload env url fileSize b c q t s).enhancedStats =
      some (newWidthOf env.naturalWidth env.naturalHeight fileSize t,
        newHeightOf env.naturalWidth env.naturalHeight fileSize t) := by
  simp [processImageOnload, hc, hx]

/-- Witness for the amended C2 on a fully successful concrete run. -/
theorem C2_amended_witness :
    Option.map (fun st : ImageStats => (st.width, st.height))
        (processImageOnload envOk "img-data-url" 500 100 100 85 300
          s0demo).enhancedStats =
      some (newWidthOf 10 10 500 300, newHeightOf 10 10 500 300) :=
  C2_amended envOk "img-data-url" 500 100 100 85 300 s0demo rfl rfl

/-- Claim C7: every successful run stores an enhanced `ImageStats` record
holding exactly the new width, the new height, `dpi = targetDpi`, the
estimated encoded byte size, and the fixed format string `"JPEG"`. -/
theorem C7_enhanced_stats (env : BrowserEnv) (url : String) (fileSize : ℤ)
    (b c q t : ℕ) (s : AppState)
    (hc : env.canvasAvailable = true) (hx : env.ctxAvailable = true) :
    (processImageOnload env url fileSize b c q t s).enhancedStats =
      some { width := newWidthOf env.naturalWidth env.naturalHeight fileSize t,
             height := newHeightOf env.naturalWidth env.naturalHeight fileSize t,
             dpi := t,
             fileSize := estimatedSize env.dataUrlLength,
             format := "JPEG" } := by
  simp [processImageOnload, hc, hx]

/-- Witness for C7 on a fully successful concrete run. -/
theorem C7_enhanced_stats_witness :
    (processImageOnload envOk "img-data-url" 500 100 100 85 300
        s0demo).enhancedStats =
      some { width := newWidthOf 10 10 500 300,
             height := newHeightOf 10 10 500 300,
             dpi := 300, fileSize := estimatedSize 1023, format := "JPEG" } :=
  C7_enhanced_stats envOk "img-data-url" 500 100 100 85 300 s0demo rfl rfl

/-- Claim C10: the enhanced dimensions depend only on the source pixel
dimensions, its byte size and the target DPI: two successful runs on the
same source with the same target DPI but different brightness, contrast or
quality (and even different encoder outputs) store identical width and
height. -/
theorem C10_dims_param_independent (env1 env2 : BrowserEnv) (url : String)
    (fileSize : ℤ) (b1 c1 q1 b2 c2 q2 t : ℕ) (s1 s2 : AppState)
    (hw : env1.naturalWidth = env2.naturalWidth)
    (hh : env1.naturalHeight = env2.naturalHeight)
    (hc1 : env1.canvasAvailable = true) (hx1 : env1.ctxAvailable = true)
    (hc2 : env2.canvasAvailable = true) (hx2 : env2.ctxAvailable = true) :
    Option.map (fun st : ImageStats => (st.width, st.height))
        (processImageOnload env1 url fileSize b1 c1 q1 t s1).enhancedStats =
      Option.map (fun st : ImageStats => (st.width, st.height))
        (processImageOnload env2 url fileSize b2 c2 q2 t s2).enhancedStats := by
  simp [processImageOnload, hc1, hx1, hc2, hx2, hw, hh]

/-- Witness for C10: brightness 100/quality 85 versus brightness 150 and
quality 50 (with the shorter encoder output) give the same dimensions. -/
theorem C10_dims_param_independent_witness :
    Option.map (fun st : ImageStats => (st.width, st.height))
        (processImageOnload envOk "img-data-url" 500 100 100 85 300
          s0demo).enhancedStats =
      Option.map (fun st : ImageStats => (st.width, st.height))
        (processImageOnload envOkShort "img-data-url" 500 150 100 50 300
          s0demo).enhancedStats :=
  C10_dims_param_independent envOk envOkShort "img-data-url" 500
    100 100 85 150 100 50 300 s0demo s0demo rfl rfl rfl rfl rfl rfl

/-- Claim C4 counterexample: a concrete run in which the canvas is
unavailable still overwrites `originalStats` (it is updated before the
canvas check) and emits no user-visible notice — so the previous results are
not all unchanged and no failure is surfaced. -/
theorem C4_counterexample :
    (processImage envNoCanvas "new-image-data-url" 500 100 100 85 300
        s0demo).originalStats ≠ s0demo.originalStats ∧
    (processImage envNoCanvas "new-image-data-url" 500 100 100 85 300
        s0demo).toasts = s0demo.toasts := by
  constructor
  · simp [processImage, processImageOnload, envNoCanvas, s0demo,
      getImageStats, ImageStats.mk.injEq]
  · simp [processImage, processImageOnload, envNoCanvas, s0demo]

/-- Claim C4 as amended: on decode failure the callback never fires and the
whole state is unchanged (but no failure notice appears and `isProcessing`
is not reset); on canvas or context unavailability the run stops before
touching the enhanced image and its stats — those two are updated together
or not at all — but `originalStats` has already been overwritten with the
new source's stats, and again no notice is emitted. -/
theorem C4_amended (env : BrowserEnv) (url : String) (fileSize : ℤ)
    (b c q t : ℕ) (s : AppState) :
    (env.decodeOk = false → processImage env url fileSize b c q t s = s) ∧
    (env.decodeOk = true → env.canvasAvailable = false →
      (processImage env url fileSize b c q t s).enhancedImage = s.enhancedImage ∧
      (processImage env url fileSize b c q t s).enhancedStats = s.enhancedStats ∧
      (processImage env url fileSize b c q t s).toasts = s.toasts ∧
      (processImage env url fileSize b c q t s).isProcessing = s.isProcessing ∧
      (processImage env url fileSize b c q t s).originalStats =
        some (getImageStats env.naturalWidth env.naturalHeight fileSize)) ∧
    (env.decodeOk = true → env.canvasAvailable = true →
        env.ctxAvailable = false →
      (processImage env url fileSize b c q t s).enhancedImage = s.enhancedImage ∧
      (processImage env url fileSize b c q t s).enhancedStats = s.enhancedStats ∧
      (processImage env url fileSize b c q t s).toasts = s.toasts ∧
      (processImage env url fileSize b c q t s).isProcessing = s.isProcessing ∧
      (processImage env url fileSize b c q t s).originalStats =
        some (getImageStats env.naturalWidth env.naturalHeight fileSize)) := by
  refine ⟨fun hd => ?_, fun hd hc => ?_, fun hd hc hx => ?_⟩
  · simp [processImage, hd]
  · simp [processImage, processImageOnload, hd, hc]
  · simp [processImage, processImageOnload, hd, hc, hx]

/-- Witness for the amended C4: the decode-failure branch at a failing
environment and the canvas-failure branch at another. -/
theorem C4_amended_witness :
    processImage envNoDecode "u" 7 100 100 85 300 s0demo = s0demo ∧
    (processImage envNoCanvas "new-image-data-url" 500 100 100 85 300
        s0demo).enhancedStats = s0demo.enhancedStats :=
  ⟨(C4_amended envNoDecode "u" 7 100 100 85 300 s0demo).1 rfl,
    ((C4_amended envNoCanvas "new-image-data-url" 500 100 100 85 300
      s0demo).2.1 rfl rfl).2.1⟩

/-- Claim C5 (code bug): moving the brightness slider from 100 to 150 on a
loaded image re-runs the pipeline, but `setBrightness` only schedules the
state update while `handleEnhancementChange` executes with the closures of
the current render — so the recomputed payload is drawn with the stale
brightness 100, even though the state now says 150. -/
theorem C5_stale_brightness :
    s0demo.brightness = 100 ∧
    (onBrightnessChange envOk s0demo 150).brightness = 150 ∧
    Option.map EnhancedPayload.filterBrightness
        (onBrightnessChange envOk s0demo 150).enhancedImage = some 100 := by
  refine ⟨rfl, ?_, ?_⟩ <;>
    simp [onBrightnessChange, handleEnhancementChange, processImage,
      processImageOnload, envOk, s0demo, fileSizeOrZero]

/-- Claim C8: a file whose declared content type does not start with
`image/` is rejected with an error toast and nothing else changes — no
pipeline run, no state mutation; a file whose type is an image type passes
validation and processing proceeds (the file is read and becomes the new
`originalImage`, and the pipeline is started on it). -/
theorem C8_upload_validation (env : BrowserEnv) (file : JsFile) (s : AppState) :
    (¬ jsStartsWith file.type "image/" = true →
      handleFileSelect env file s =
        { s with toasts :=
            s.toasts ++ [Toast.error "Please select an image file"] }) ∧
    (jsStartsWith file.type "image/" = true →
      (handleFileSelect env file s).originalImage = some file.dataUrl) := by
  constructor
  · intro hrej
    simp [handleFileSelect, hrej]
  · intro hok
    simp only [handleFileSelect, hok, not_true_eq_false, if_neg,
      ite_false, if_false]
    rw [processImage_originalImage]

/-- Witness for C8: a `text/plain` file is rejected untouched; an
`image/png` file is loaded into `originalImage`. -/
theorem C8_upload_validation_witness :
    handleFileSelect envOk fileTextDemo s0demo =
      { s0demo with toasts :=
          s0demo.toasts ++ [Toast.error "Please select an image file"] } ∧
    (handleFileSelect envOk fileImageDemo s0demo).originalImage =
      some "img-data-url" :=
  ⟨(C8_upload_validation envOk fileTextDemo s0demo).1 (by decide),
    (C8_upload_validation envOk fileImageDemo s0demo).2 (by decide)⟩

end ImageEnhancer
